import Mathlib

/-!
Shallow embedding of the synthetic time-series generation engine of the
Weather-Adjusted-Generation-Analytics repository
(`src/mock_data/generate_weather.py` and `src/mock_data/generate_generation.py`),
together with proofs of the frozen specification claims.

Modelling conventions:
* Python/numpy floating-point values are modelled as rationals (`ℚ`); the
  float constants of the source (`0.85`, `1e-6`, ...) are taken at their
  decimal face value.
* The process-wide numpy random generator is modelled as an explicit state
  (`RNG`): an unbounded stream of rationals plus a cursor.  `np.random.seed`
  replaces that state with one derived from the seed alone.  Bounded draws
  (`np.random.uniform`, `np.random.random`) clamp stream values into the
  requested interval; `np.random.normal` is an affine image of the raw
  stream (normal deviates are unbounded, and no claim depends on the
  distribution, only on determinism and on the clamped bounds).
* `np.sin` is replaced by a fixed computable rational polynomial (`sinQ`).
  Every theorem below is independent of the concrete values of `sinQ`.
* Timestamps are seconds since 1970-01-01T00:00:00 (`ℤ`), matching the
  naive-datetime arithmetic of the source; calendar conversions follow the
  standard civil-calendar algorithms used by `datetime`/`polars`.
* Tables (`pl.DataFrame`) are lists of typed records, one structure field
  per column; the column-name contract is carried by explicit name lists.
-/

namespace WAGA

/-! ## Basic numeric helpers -/

/-- Model of `np.clip(x, lo, hi)`. -/
def clip (x lo hi : ℚ) : ℚ := min (max x lo) hi

theorem clip_le_hi (x lo hi : ℚ) : clip x lo hi ≤ hi := min_le_right _ _

theorem lo_le_clip (x : ℚ) {lo hi : ℚ} (h : lo ≤ hi) : lo ≤ clip x lo hi :=
  le_min (le_max_right _ _) h

/-- Fractional part of a rational, in `[0, 1)`. -/
def fract (x : ℚ) : ℚ := x - ⌊x⌋

theorem fract_nonneg (x : ℚ) : 0 ≤ fract x := by
  have := Int.floor_le x
  simp only [fract]
  linarith

theorem fract_lt_one (x : ℚ) : fract x < 1 := by
  have := Int.lt_floor_add_one x
  simp only [fract]
  linarith

/-- Model of the Python/numpy `%` on floats: the remainder takes the sign of
the divisor, so for a positive modulus the result lies in `[0, m)`. -/
def qmod (x m : ℚ) : ℚ := x - m * ⌊x / m⌋

theorem qmod_eq_mul_fract (x m : ℚ) (hm : m ≠ 0) : qmod x m = m * fract (x / m) := by
  unfold qmod fract
  rw [mul_sub, mul_div_cancel₀ x hm]

theorem qmod_nonneg (x : ℚ) {m : ℚ} (hm : 0 < m) : 0 ≤ qmod x m := by
  rw [qmod_eq_mul_fract x m (ne_of_gt hm)]
  exact mul_nonneg (le_of_lt hm) (fract_nonneg _)

theorem qmod_lt (x : ℚ) {m : ℚ} (hm : 0 < m) : qmod x m < m := by
  rw [qmod_eq_mul_fract x m (ne_of_gt hm)]
  calc m * fract (x / m) < m * 1 := by
        exact (mul_lt_mul_left hm).mpr (fract_lt_one _)
    _ = m := mul_one m

/-! ## Decimal digits and asset-id strings

Model of Python `str(n)` (decimal digits of a natural number, no leading
zeros) and `str.zfill` (left pad with `'0'`).  The recursion is fuelled so
that it is structural and hence kernel-reducible. -/

/-- Decimal digit character, `digitChar 7 = '7'` for `n < 10`. -/
def digitChar (n : ℕ) : Char := Char.ofNat (48 + n)

/-- Fuel-driven decimal digit expansion; `fuel > n` suffices. -/
def natDigitsAux : ℕ → ℕ → List Char
  | 0, _ => []
  | fuel + 1, n =>
    if n < 10 then [digitChar n]
    else natDigitsAux fuel (n / 10) ++ [digitChar (n % 10)]

/-- Model of Python `str(n)` for a natural number. -/
def natDigits (n : ℕ) : List Char := natDigitsAux (n + 1) n

/-- Numeric value of a digit string (inverse of `natDigits`). -/
def valDigits (cs : List Char) : ℕ := cs.foldl (fun a c => 10 * a + (c.toNat - 48)) 0

/-- Model of Python `str.zfill(k)`: left-pad with `'0'` to length `k`. -/
def zfill (k : ℕ) (cs : List Char) : List Char :=
  List.replicate (k - cs.length) '0' ++ cs

theorem toNat_digitChar {n : ℕ} (h : n < 10) : (digitChar n).toNat = 48 + n := by
  interval_cases n <;> decide

theorem valDigits_append_digit (cs : List Char) (c : Char) :
    valDigits (cs ++ [c]) = 10 * valDigits cs + (c.toNat - 48) := by
  simp [valDigits, List.foldl_append]

theorem valDigits_natDigitsAux : ∀ fuel n, n < fuel → valDigits (natDigitsAux fuel n) = n := by
  intro fuel
  induction fuel with
  | zero => intro n h; omega
  | succ f ih =>
    intro n h
    by_cases h10 : n < 10
    · simp [natDigitsAux, h10, valDigits, toNat_digitChar h10]
    · have hd : n / 10 < f := by omega
      simp only [natDigitsAux, h10, if_false, valDigits_append_digit, ih _ hd]
      have : (n % 10) < 10 := Nat.mod_lt _ (by omega)
      rw [toNat_digitChar this]
      omega

theorem valDigits_natDigits (n : ℕ) : valDigits (natDigits n) = n :=
  valDigits_natDigitsAux (n + 1) n (Nat.lt_succ_self n)

theorem valDigits_replicate_zero_append (m : ℕ) (cs : List Char) :
    valDigits (List.replicate m '0' ++ cs) = valDigits cs := by
  induction m with
  | zero => simp
  | succ k ih =>
    have : List.replicate (k + 1) '0' ++ cs = '0' :: (List.replicate k '0' ++ cs) := by
      simp [List.replicate_succ]
    rw [this]
    simpa [valDigits] using ih

theorem valDigits_zfill (k : ℕ) (cs : List Char) : valDigits (zfill k cs) = valDigits cs :=
  valDigits_replicate_zero_append _ _

/-- Model of the asset naming scheme `f"ASSET_{str(i+1).zfill(3)}"` (for the
index `i` in `range(asset_count)`). -/
def assetName (i : ℕ) : String :=
  ⟨'A' :: 'S' :: 'S' :: 'E' :: 'T' :: '_' :: zfill 3 (natDigits (i + 1))⟩

theorem assetName_injective : Function.Injective assetName := by
  intro i j h
  have hdata := congrArg String.data h
  simp only [assetName] at hdata
  have hz : zfill 3 (natDigits (i + 1)) = zfill 3 (natDigits (j + 1)) := by
    simpa using hdata
  have hv : valDigits (zfill 3 (natDigits (i + 1))) = valDigits (zfill 3 (natDigits (j + 1))) := by
    rw [hz]
  rw [valDigits_zfill, valDigits_zfill, valDigits_natDigits, valDigits_natDigits] at hv
  omega

/-! ## Byte-lexicographic string order

Model of the string order used by the dataframe sort on `asset_id`
(polars sorts utf8 columns bytewise; on the ASCII names used here this is
the character-wise lexicographic order). -/

/-- Lexicographic comparison of character lists by code point. -/
def chLE : List Char → List Char → Bool
  | [], _ => true
  | _ :: _, [] => false
  | a :: as, b :: bs =>
    if a.toNat < b.toNat then true
    else if a.toNat = b.toNat then chLE as bs
    else false

/-- Byte-lexicographic order on strings, as applied by the dataframe sort. -/
def strLE (a b : String) : Prop := chLE a.data b.data = true

instance : DecidableRel strLE := fun _ _ => instDecidableEqBool _ _

theorem chLE_total : ∀ as bs, chLE as bs = true ∨ chLE bs as = true := by
  intro as
  induction as with
  | nil => intro bs; left; rfl
  | cons a as ih =>
    intro bs
    cases bs with
    | nil => right; rfl
    | cons b bs =>
      by_cases hlt : a.toNat < b.toNat
      · left; simp only [chLE]; rw [if_pos hlt]
      · by_cases heq : a.toNat = b.toNat
        · rcases ih bs with h | h
          · left; simp only [chLE]; rw [if_neg hlt, if_pos heq]; exact h
          · right; simp only [chLE]
            rw [if_neg (by omega : ¬ b.toNat < a.toNat), if_pos heq.symm]
            exact h
        · right
          simp only [chLE]
          rw [if_pos (by omega : b.toNat < a.toNat)]

theorem chLE_trans : ∀ as bs cs, chLE as bs = true → chLE bs cs = true → chLE as cs = true := by
  intro as
  induction as with
  | nil => intro bs cs _ _; rfl
  | cons a as ih =>
    intro bs cs h1 h2
    cases bs with
    | nil => simp [chLE] at h1
    | cons b bs =>
      cases cs with
      | nil => simp [chLE] at h2
      | cons c cs =>
        simp only [chLE] at h1 h2 ⊢
        by_cases hab : a.toNat < b.toNat
        · by_cases hbc : b.toNat < c.toNat
          · rw [if_pos (by omega : a.toNat < c.toNat)]
          · by_cases hbc2 : b.toNat = c.toNat
            · rw [if_pos (by omega : a.toNat < c.toNat)]
            · rw [if_neg hbc, if_neg hbc2] at h2; exact absurd h2 (by simp)
        · by_cases hab2 : a.toNat = b.toNat
          · rw [if_neg hab, if_pos hab2] at h1
            by_cases hbc : b.toNat < c.toNat
            · rw [if_pos (by omega : a.toNat < c.toNat)]
            · by_cases hbc2 : b.toNat = c.toNat
              · rw [if_neg hbc, if_pos hbc2] at h2
                rw [if_neg (by omega : ¬ a.toNat < c.toNat),
                  if_pos (by omega : a.toNat = c.toNat)]
                exact ih bs cs h1 h2
              · rw [if_neg hbc, if_neg hbc2] at h2; exact absurd h2 (by simp)
          · rw [if_neg hab, if_neg hab2] at h1; exact absurd h1 (by simp)

theorem strLE_total (a b : String) : strLE a b ∨ strLE b a := chLE_total _ _

theorem strLE_trans {a b c : String} (h1 : strLE a b) (h2 : strLE b c) : strLE a c :=
  chLE_trans _ _ _ h1 h2

/-! ## Civil calendar

Conversions between the proleptic Gregorian calendar and day numbers
relative to the epoch 1970-01-01, using the standard civil-calendar
algorithms underlying `datetime`/`polars`. -/

/-- Gregorian leap-year test. -/
def isLeap (y : ℤ) : Bool := (y % 4 == 0 && y % 100 != 0) || y % 400 == 0

/-- Days in a month of the Gregorian calendar. -/
def daysInMonth (y : ℤ) (m : ℕ) : ℕ :=
  if m = 2 then (if isLeap y then 29 else 28)
  else if m = 4 ∨ m = 6 ∨ m = 9 ∨ m = 11 then 30
  else 31

/-- Day number of a calendar date, counted from the epoch 1970-01-01. -/
def daysFromCivil (y : ℤ) (m d : ℕ) : ℤ :=
  let yAdj : ℤ := if m ≤ 2 then y - 1 else y
  let era : ℤ := yAdj.ediv 400
  let yoe : ℤ := yAdj - era * 400
  let mp : ℤ := if m ≤ 2 then (m : ℤ) + 9 else (m : ℤ) - 3
  let doy : ℤ := (153 * mp + 2).ediv 5 + (d : ℤ) - 1
  let doe : ℤ := yoe * 365 + yoe.ediv 4 - yoe.ediv 100 + doy
  era * 146097 + doe - 719468

/-- Calendar date `(year, month, day)` of an epoch-relative day number. -/
def civilFromDays (z0 : ℤ) : ℤ × ℕ × ℕ :=
  let z : ℤ := z0 + 719468
  let era : ℤ := z.ediv 146097
  let doe : ℤ := z - era * 146097
  let yoe : ℤ := (doe - doe.ediv 1460 + doe.ediv 36524 - doe.ediv 146096).ediv 365
  let y : ℤ := yoe + era * 400
  let doy : ℤ := doe - (365 * yoe + yoe.ediv 4 - yoe.ediv 100)
  let mp : ℤ := (5 * doy + 2).ediv 153
  let d : ℤ := doy - (153 * mp + 2).ediv 5 + 1
  let m : ℤ := if mp < 10 then mp + 3 else mp - 9
  (if m ≤ 2 then y + 1 else y, m.toNat, d.toNat)

/-- Hour of day of an epoch-relative timestamp in seconds
(model of `pl.col("timestamp").dt.hour()`). -/
def tsHour (ts : ℤ) : ℤ := (ts.emod 86400).ediv 3600

/-- Ordinal day of year, 1-based
(model of `pl.col("timestamp").dt.ordinal_day()`). -/
def tsDayOfYear (ts : ℤ) : ℤ :=
  let z := ts.ediv 86400
  let c := civilFromDays z
  z - daysFromCivil c.1 1 1 + 1

/-- ISO `YYYY-MM-DD` rendering of an epoch-relative day number
(model of `date.isoformat()`; `datetime` years always lie in 1..9999). -/
def isoDate (z : ℤ) : String :=
  let c := civilFromDays z
  ⟨zfill 4 (natDigits c.1.toNat) ++ '-' :: (zfill 2 (natDigits c.2.1) ++ '-' :: zfill 2 (natDigits c.2.2))⟩

/-! ## ISO datetime parsing

Model of `datetime.fromisoformat` restricted to the input format the
generators document (`YYYY-MM-DD`, optionally followed by `THH:MM:SS` or
`" HH:MM:SS"`).  A successful parse yields seconds since the epoch; any
other string raises `ValueError`, modelled as `none`. -/

/-- Value of one ASCII digit character, if it is a digit. -/
def digitVal (c : Char) : Option ℕ :=
  if 48 ≤ c.toNat ∧ c.toNat ≤ 57 then some (c.toNat - 48) else none

/-- Two-digit field. -/
def twoDigits (a b : Char) : Option ℕ :=
  match digitVal a, digitVal b with
  | some x, some y => some (10 * x + y)
  | _, _ => none

/-- Four-digit field. -/
def fourDigits (a b c d : Char) : Option ℕ :=
  match twoDigits a b, twoDigits c d with
  | some x, some y => some (100 * x + y)
  | _, _ => none

/-- Range-check the parsed fields and assemble the timestamp, as
`datetime(year, month, day, hour, minute, second)` validates them. -/
def buildTimestamp (y mo d h mi s : ℕ) : Option ℤ :=
  if 1 ≤ y ∧ y ≤ 9999 ∧ 1 ≤ mo ∧ mo ≤ 12 ∧ 1 ≤ d ∧ d ≤ daysInMonth (y : ℤ) mo
      ∧ h ≤ 23 ∧ mi ≤ 59 ∧ s ≤ 59 then
    some (daysFromCivil (y : ℤ) mo d * 86400 + (h : ℤ) * 3600 + (mi : ℤ) * 60 + (s : ℤ))
  else none

/-- Model of `datetime.fromisoformat` on the documented input formats. -/
def parseDateTime (s : String) : Option ℤ :=
  match s.data with
  | [y1, y2, y3, y4, c1, m1, m2, c2, d1, d2] =>
    if c1 = '-' ∧ c2 = '-' then
      match fourDigits y1 y2 y3 y4, twoDigits m1 m2, twoDigits d1 d2 with
      | some y, some mo, some d => buildTimestamp y mo d 0 0 0
      | _, _, _ => none
    else none
  | [y1, y2, y3, y4, c1, m1, m2, c2, d1, d2, sep, h1, h2, c3, n1, n2, c4, s1, s2] =>
    if (c1 = '-' ∧ c2 = '-') ∧ (sep = 'T' ∨ sep = ' ') ∧ c3 = ':' ∧ c4 = ':' then
      match fourDigits y1 y2 y3 y4, twoDigits m1 m2, twoDigits d1 d2,
          twoDigits h1 h2, twoDigits n1 n2, twoDigits s1 s2 with
      | some y, some mo, some d, some h, some mi, some s => buildTimestamp y mo d h mi s
      | _, _, _, _, _, _ => none
    else none
  | _ => none

/-! ## Random-generator model -/

/-- Explicit model of the process-wide numpy random generator: a stream of
rationals and a cursor marking how much of it has been consumed. -/
structure RNG where
  stream : ℕ → ℚ
  pos : ℕ

/-- Abstract stand-in for the Mersenne-Twister stream as a pure function of
the seed.  No claim depends on the concrete values, only on determinism and
on the clamped bounds of the derived draws. -/
def mtStream (seed : ℤ) (n : ℕ) : ℚ :=
  fract (((seed + (n : ℤ)) * 1103515245 + 12345 : ℚ) / 65536)

/-- Model of `np.random.seed(seed)`: the global generator state is replaced
by one that depends on the seed alone. -/
def seedRNG (seed : ℤ) : RNG := ⟨mtStream seed, 0⟩

/-- Consume `n` raw stream values. -/
def RNG.take (r : RNG) (n : ℕ) : List ℚ × RNG :=
  ((List.range n).map fun i => r.stream (r.pos + i), ⟨r.stream, r.pos + n⟩)

/-- Model of `np.random.normal(mu, sigma, n)`: an affine image of the raw
stream (unbounded, like normal deviates). -/
def normalVec (mu sigma : ℚ) (n : ℕ) (r : RNG) : List ℚ × RNG :=
  let p := r.take n
  (p.1.map fun u => mu + sigma * u, p.2)

/-- Model of `np.random.uniform(lo, hi, n)`: stream values clamped into
`[lo, hi)` via their fractional part. -/
def uniformVec (lo hi : ℚ) (n : ℕ) (r : RNG) : List ℚ × RNG :=
  let p := r.take n
  (p.1.map fun u => lo + (hi - lo) * fract u, p.2)

/-- Model of `np.random.random(n)`. -/
def randomVec (n : ℕ) (r : RNG) : List ℚ × RNG := uniformVec 0 1 n r

theorem length_take (r : RNG) (n : ℕ) : (r.take n).1.length = n := by
  simp [RNG.take]

theorem length_normalVec (mu sigma : ℚ) (n : ℕ) (r : RNG) :
    (normalVec mu sigma n r).1.length = n := by
  simp [normalVec, RNG.take]

theorem length_uniformVec (lo hi : ℚ) (n : ℕ) (r : RNG) :
    (uniformVec lo hi n r).1.length = n := by
  simp [uniformVec, RNG.take]

theorem uniformVec_getD (lo hi : ℚ) {n i : ℕ} (r : RNG) (hi' : i < n) :
    (uniformVec lo hi n r).1.getD i 0 = lo + (hi - lo) * fract (r.stream (r.pos + i)) := by
  simp [uniformVec, RNG.take, List.getD, List.getElem?_map, List.getElem?_range hi']

theorem uniformVec_getD_bounds {lo hi : ℚ} {n i : ℕ} (r : RNG) (hi' : i < n)
    (hle : lo ≤ hi) :
    lo ≤ (uniformVec lo hi n r).1.getD i 0 ∧ (uniformVec lo hi n r).1.getD i 0 ≤ hi := by
  rw [uniformVec_getD lo hi r hi']
  constructor
  · have : 0 ≤ (hi - lo) * fract (r.stream (r.pos + i)) :=
      mul_nonneg (by linarith) (fract_nonneg _)
    linarith
  · have h1 : (hi - lo) * fract (r.stream (r.pos + i)) ≤ (hi - lo) * 1 :=
      mul_le_mul_of_nonneg_left (le_of_lt (fract_lt_one _)) (by linarith)
    linarith

/-! ## Hourly timestamp grid -/

/-- Model of `pl.datetime_range(start, end, interval="1h", eager=True)`:
hourly timestamps from `start` up to and including the last one `≤ end`
(empty when `end < start`). -/
def datetimeRange (start stop : ℤ) : List ℤ :=
  if stop < start then []
  else (List.range (((stop - start).ediv 3600).toNat + 1)).map fun k : ℕ => start + 3600 * (k : ℤ)

theorem length_datetimeRange_of_le {start stop : ℤ} (h : start ≤ stop) :
    (datetimeRange start stop).length = ((stop - start).ediv 3600).toNat + 1 := by
  simp [datetimeRange, not_lt.mpr h]

theorem datetimeRange_nodup (start stop : ℤ) : (datetimeRange start stop).Nodup := by
  unfold datetimeRange
  split
  · exact List.nodup_nil
  · refine (List.nodup_range _).map ?_
    intro a b hab
    simp only [add_right_inj] at hab
    omega

/-! ## Trigonometric stand-in -/

/-- Computable rational stand-in for `np.sin` (truncated Taylor series).
Every theorem in this development is independent of its concrete values. -/
def sinQ (x : ℚ) : ℚ := x - x ^ 3 / 6 + x ^ 5 / 120 - x ^ 7 / 5040

/-- Rational stand-in for `np.pi`. -/
def piQ : ℚ := 3141592653589793 / 1000000000000000

/-! ## Power models (`src/mock_data/generate_generation.py`)

`wind_power_curve` mutates a zero vector through three boolean masks; the
per-element meaning of that mask sequence is captured by
`windPowerPoint`, and the vectorized function maps it over the input. -/

/-- Pointwise semantics of the mask-assignment sequence of
`wind_power_curve` applied to one wind-speed element: the vector starts at
zero and the three masks are disjoint, so the last applicable assignment
(checked first here) determines the element. -/
def windPowerPoint (capacity_mw : ℚ) (s : ℚ) : ℚ :=
  if 25 ≤ s then 0
  else if 12 ≤ s ∧ s < 25 then capacity_mw
  else if 3 ≤ s ∧ s < 12 then capacity_mw * ((s - 3) / 9) ^ 3
  else 0

/-- Model of `wind_power_curve(wind_speed, capacity_mw)` on a vector of
wind speeds. -/
def wind_power_curve (wind_speed : List ℚ) (capacity_mw : ℚ) : List ℚ :=
  wind_speed.map (windPowerPoint capacity_mw)

/-- Pointwise semantics of `solar_power_output` applied to one GHI element:
linear in irradiance with efficiency 0.85, clipped to `[0, capacity]`. -/
def solarPowerPoint (capacity_mw : ℚ) (ghi : ℚ) : ℚ :=
  clip (ghi / 1000 * capacity_mw * 0.85) 0 capacity_mw

/-- Model of `solar_power_output(ghi, capacity_mw)` on a vector of GHI
values. -/
def solar_power_output (ghi : List ℚ) (capacity_mw : ℚ) : List ℚ :=
  ghi.map (solarPowerPoint capacity_mw)

theorem windPowerPoint_nonneg (c s : ℚ) (hc : 0 ≤ c) : 0 ≤ windPowerPoint c s := by
  unfold windPowerPoint
  split_ifs with h25 h12 h3
  · exact le_refl 0
  · exact hc
  · rcases h3 with ⟨h3a, _⟩
    have : (0:ℚ) ≤ (s - 3) / 9 := by linarith [div_nonneg (by linarith : (0:ℚ) ≤ s - 3) (by norm_num : (0:ℚ) ≤ 9)]
    exact mul_nonneg hc (pow_nonneg this 3)
  · exact le_refl 0

theorem windPowerPoint_le_capacity (c s : ℚ) (hc : 0 ≤ c) : windPowerPoint c s ≤ c := by
  unfold windPowerPoint
  split_ifs with h25 h12 h3
  · exact hc
  · exact le_refl c
  · rcases h3 with ⟨h3a, h3b⟩
    have hx0 : (0:ℚ) ≤ (s - 3) / 9 :=
      div_nonneg (by linarith) (by norm_num)
    have hx1 : (s - 3) / 9 ≤ 1 := by
      rw [div_le_one (by norm_num : (0:ℚ) < 9)]; linarith
    calc c * ((s - 3) / 9) ^ 3 ≤ c * 1 :=
          mul_le_mul_of_nonneg_left (pow_le_one₀ hx0 hx1) hc
      _ = c := mul_one c
  · exact hc

theorem solarPowerPoint_nonneg (c g : ℚ) (hc : 0 ≤ c) : 0 ≤ solarPowerPoint c g :=
  lo_le_clip _ hc

theorem solarPowerPoint_le_capacity (c g : ℚ) : solarPowerPoint c g ≤ c :=
  clip_le_hi _ _ _

theorem solarPowerPoint_of_nonpos (c g : ℚ) (hc : 0 ≤ c) (hg : g ≤ 0) :
    solarPowerPoint c g = 0 := by
  unfold solarPowerPoint clip
  have hx : g / 1000 * c * 0.85 ≤ 0 := by
    have h1 : g / 1000 ≤ 0 := div_nonpos_of_nonpos_of_nonneg hg (by norm_num)
    have h2 : g / 1000 * c ≤ 0 := mul_nonpos_iff.mpr (Or.inr ⟨h1, hc⟩)
    nlinarith
  rw [max_eq_right hx, min_eq_left hc]

/-! ## Table rows and sort keys -/

/-- Row of the weather table (`generate_weather_data` output schema). -/
structure WeatherRow where
  timestamp : ℤ
  asset_id : String
  wind_speed_mps : ℚ
  wind_direction_deg : ℚ
  ghi : ℚ
  temperature_c : ℚ
  pressure_hpa : ℚ
  relative_humidity : ℚ
deriving DecidableEq

/-- Column names of the weather table, in construction order
(`select([timestamp, asset_id]).with_columns([...])`). -/
def weatherColumns : List String :=
  ["timestamp", "asset_id", "wind_speed_mps", "wind_direction_deg", "ghi",
   "temperature_c", "pressure_hpa", "relative_humidity"]

/-- Column names of the Weather Record schema as the specification lists
them. -/
def weatherRecordSchema : List String :=
  ["timestamp", "asset_id", "wind_speed_mps", "wind_direction_deg", "ghi",
   "temperature_c", "pressure_hpa", "relative_humidity"]

/-- Sort key order used by `df.sort(["timestamp", "asset_id"])`:
timestamps ascending, ties broken by the string order on asset ids. -/
def keyLE (p q : ℤ × String) : Prop :=
  p.1 < q.1 ∨ (p.1 = q.1 ∧ strLE p.2 q.2)

instance : DecidableRel keyLE := fun p q =>
  inferInstanceAs (Decidable (p.1 < q.1 ∨ (p.1 = q.1 ∧ strLE p.2 q.2)))

theorem keyLE_total (p q : ℤ × String) : keyLE p q ∨ keyLE q p := by
  rcases lt_trichotomy p.1 q.1 with h | h | h
  · exact Or.inl (Or.inl h)
  · rcases strLE_total p.2 q.2 with hs | hs
    · exact Or.inl (Or.inr ⟨h, hs⟩)
    · exact Or.inr (Or.inr ⟨h.symm, hs⟩)
  · exact Or.inr (Or.inl h)

theorem keyLE_trans {p q r : ℤ × String} (h1 : keyLE p q) (h2 : keyLE q r) : keyLE p r := by
  rcases h1 with h1 | ⟨h1e, h1s⟩
  · rcases h2 with h2 | ⟨h2e, _⟩
    · exact Or.inl (lt_trans h1 h2)
    · exact Or.inl (h2e ▸ h1)
  · rcases h2 with h2 | ⟨h2e, h2s⟩
    · exact Or.inl (h1e ▸ h2)
    · exact Or.inr ⟨h1e.trans h2e, strLE_trans h1s h2s⟩

/-- Sort relation on weather rows. -/
def weatherRowLE (a b : WeatherRow) : Prop :=
  keyLE (a.timestamp, a.asset_id) (b.timestamp, b.asset_id)

instance : DecidableRel weatherRowLE := fun a b =>
  inferInstanceAs (Decidable (keyLE _ _))

instance : IsTotal WeatherRow weatherRowLE := ⟨fun a b => keyLE_total _ _⟩

instance : IsTrans WeatherRow weatherRowLE := ⟨fun _ _ _ => keyLE_trans⟩

/-! ## Weather synthesizer (`src/mock_data/generate_weather.py`) -/

/-- Weather row at index `i` of the cross-joined base table, given the
per-asset base bearings and the six noise vectors.  Transcribes the field
formulas of `generate_weather_data` (the unused helper column `month` of
the source is dropped by its final `select` and is not materialized
here). -/
def weatherRowAt (base : List (ℤ × String)) (dirOf : List (String × ℚ))
    (wn dc cf tn pn hn : List ℚ) (i : ℕ) : WeatherRow :=
  let ta := base.getD i (0, "")
  let hr : ℚ := ((tsHour ta.1 : ℤ) : ℚ)
  let doy : ℚ := ((tsDayOfYear ta.1 : ℤ) : ℚ)
  let seasonal_wind : ℚ := 10 + 3 * sinQ (2 * piQ * doy / 365)
  let diurnal_wind : ℚ := 1.5 * sinQ (2 * piQ * (hr - 6) / 24)
  let wind_speed := clip (seasonal_wind + diurnal_wind + wn.getD i 0) 0 25
  let base_direction := (dirOf.lookup ta.2).getD 0
  let wind_direction := qmod (base_direction + dc.getD i 0) 360
  let max_ghi : ℚ := 900 + 100 * sinQ (2 * piQ * (doy - 80) / 365)
  let solar_hour : ℚ := hr - 12
  let ghi_pattern : ℚ := if |solar_hour| < 6 then max_ghi * (1 - (solar_hour / 8) ^ 2) else 0
  let ghi := clip (ghi_pattern * cf.getD i 0) 0 1000
  let seasonal_temp : ℚ := 15 + 12 * sinQ (2 * piQ * (doy - 80) / 365)
  let diurnal_temp : ℚ := 5 * sinQ (2 * piQ * (hr - 6) / 24)
  let temperature := seasonal_temp + diurnal_temp + tn.getD i 0
  let pressure := 1013 + 5 * sinQ (2 * piQ * doy / 365) + pn.getD i 0
  let temp_effect := -0.5 * (temperature - 15)
  let ghi_effect := -0.01 * ghi
  let relative_humidity := clip (65 + temp_effect + ghi_effect + hn.getD i 0) 20 95
  ⟨ta.1, ta.2, wind_speed, wind_direction, ghi, temperature, pressure, relative_humidity⟩

/-- Body of `generate_weather_data` after date parsing: seed the generator,
build the hourly grid, cross-join it with the auto-named asset ids, draw
the noise vectors in source order (wind noise; one base bearing per asset;
direction change; cloud factor; temperature, pressure and humidity noise),
materialize the rows, and sort by `(timestamp, asset_id)`. -/
def weatherTable (ts te : ℤ) (asset_count : ℤ) (random_seed : ℤ) : List WeatherRow :=
  let r0 := seedRNG random_seed
  let timestamps := datetimeRange ts te
  let asset_ids := (List.range asset_count.toNat).map assetName
  let base := timestamps.product asset_ids
  let n := base.length
  let p1 := normalVec 0 2 n r0
  let p2 := uniformVec 0 360 asset_ids.length p1.2
  let dirOf := asset_ids.zip p2.1
  let p3 := normalVec 0 20 n p2.2
  let p4 := uniformVec 0.7 1 n p3.2
  let p5 := normalVec 0 2 n p4.2
  let p6 := normalVec 0 5 n p5.2
  let p7 := normalVec 0 10 n p6.2
  List.insertionSort weatherRowLE
    ((List.range n).map (weatherRowAt base dirOf p1.1 p3.1 p4.1 p5.1 p6.1 p7.1))

/-- Model of `generate_weather_data(start_date, end_date, asset_count,
random_seed)`.  The incoming global generator state `g0` is discarded by
the initial `np.random.seed` call; unparseable dates raise `ValueError`
from `datetime.fromisoformat` before any table is built. -/
def generate_weather_data (start_date end_date : String) (asset_count : ℤ)
    (random_seed : ℤ) (g0 : RNG) : Except String (List WeatherRow) :=
  match parseDateTime start_date, parseDateTime end_date with
  | none, _ => .error "ValueError: invalid isoformat string (start_date)"
  | some _, none => .error "ValueError: invalid isoformat string (end_date)"
  | some ts, some te => .ok (weatherTable ts te asset_count random_seed)

/-! ## Generation synthesizer (`src/mock_data/generate_generation.py`) -/

/-- Static asset configuration: capacity and type (`"wind"`/`"solar"`;
the source dispatches on `type == "wind"` with solar as the `else`
branch). -/
structure AssetCfg where
  capacity_mw : ℚ
  type : String
deriving DecidableEq

/-- The `ASSET_CONFIGS` constant of the source. -/
def ASSET_CONFIGS : List (String × AssetCfg) :=
  [("ASSET_001", ⟨50, "wind"⟩), ("ASSET_002", ⟨75, "wind"⟩),
   ("ASSET_003", ⟨100, "wind"⟩), ("ASSET_004", ⟨45, "wind"⟩),
   ("ASSET_005", ⟨80, "wind"⟩), ("ASSET_006", ⟨30, "solar"⟩),
   ("ASSET_007", ⟨50, "solar"⟩), ("ASSET_008", ⟨40, "solar"⟩),
   ("ASSET_009", ⟨60, "solar"⟩), ("ASSET_010", ⟨35, "solar"⟩)]

/-- Row of the generation table (`generate_generation_data` output
schema). -/
structure GenRow where
  timestamp : ℤ
  asset_id : String
  gross_generation_mwh : ℚ
  net_generation_mwh : ℚ
  curtailment_mwh : ℚ
  availability_pct : ℚ
  asset_capacity_mw : ℚ
deriving DecidableEq

/-- Column names of the generation table, in construction order. -/
def genColumns : List String :=
  ["timestamp", "asset_id", "gross_generation_mwh", "net_generation_mwh",
   "curtailment_mwh", "availability_pct", "asset_capacity_mw"]

/-- Driver values available to the power models for one row: the
`(timestamp, asset_id)` key plus the possibly-null `wind_speed_mps` and
`ghi` columns after the weather join (always present in the synthetic
branch). -/
structure DriverRow where
  timestamp : ℤ
  asset_id : String
  wind_speed_mps : Option ℚ
  ghi : Option ℚ
deriving DecidableEq

/-- Unreachable default for the dict lookup `asset_configs[asset_id]`
(every row's asset id is drawn from the dict's own key list). -/
def defaultCfg : AssetCfg := ⟨0, "solar"⟩

/-- Join predicate on `(timestamp, asset_id)`. -/
def keyMatch (t : ℤ) (a : String) (r : WeatherRow) : Bool :=
  r.timestamp == t && r.asset_id == a

/-- Left join of the base cross product with a weather table on
`(timestamp, asset_id)`: rows with no match keep null driver values. -/
def joinWeather (base : List (ℤ × String)) (w : List WeatherRow) : List DriverRow :=
  base.map fun ta =>
    match w.find? (keyMatch ta.1 ta.2) with
    | some r => ⟨ta.1, ta.2, some r.wind_speed_mps, some r.ghi⟩
    | none => ⟨ta.1, ta.2, none, none⟩

/-- Detects a base key matched by two or more weather rows.  In that case
the polars left join yields more rows than `n_rows = len(base_df)`, and
the source's fixed-size numpy loop raises `IndexError`; the model returns
that error. -/
def dupMatch (base : List (ℤ × String)) (w : List WeatherRow) : Bool :=
  base.any fun ta => 2 ≤ w.countP (keyMatch ta.1 ta.2)

/-- Synthetic driver row for the no-weather branch: the same wind-speed
and GHI formulas as the weather synthesizer, restricted to the two driver
columns. -/
def synthDriverAt (base : List (ℤ × String)) (wn cf : List ℚ) (i : ℕ) : DriverRow :=
  let ta := base.getD i (0, "")
  let hr : ℚ := ((tsHour ta.1 : ℤ) : ℚ)
  let doy : ℚ := ((tsDayOfYear ta.1 : ℤ) : ℚ)
  let seasonal_wind : ℚ := 10 + 3 * sinQ (2 * piQ * doy / 365)
  let diurnal_wind : ℚ := 1.5 * sinQ (2 * piQ * (hr - 6) / 24)
  let wind_speed := clip (seasonal_wind + diurnal_wind + wn.getD i 0) 0 25
  let max_ghi : ℚ := 900 + 100 * sinQ (2 * piQ * (doy - 80) / 365)
  let solar_hour : ℚ := hr - 12
  let ghi_pattern : ℚ := if |solar_hour| < 6 then max_ghi * (1 - (solar_hour / 8) ^ 2) else 0
  let ghi := clip (ghi_pattern * cf.getD i 0) 0 1000
  ⟨ta.1, ta.2, some wind_speed, some ghi⟩

/-- Gross generation of one row before the stochastic layers: dispatch on
the asset type and feed the driver value to the one-element power-model
call (`wind_power_curve(np.array([v if v else 0]), capacity)[0]`; a null
driver — and likewise a zero one, via Python falsiness — enters the model
as 0). -/
def rowGross (asset_configs : List (String × AssetCfg)) (dr : DriverRow) : ℚ :=
  let cfg := (asset_configs.lookup dr.asset_id).getD defaultCfg
  if cfg.type = "wind" then
    (wind_power_curve [dr.wind_speed_mps.getD 0] cfg.capacity_mw).getD 0 0
  else
    (solar_power_output [dr.ghi.getD 0] cfg.capacity_mw).getD 0 0

/-- Intermediate and final values of the stochastic layers for one row. -/
structure GenVals where
  gross1 : ℚ
  net0 : ℚ
  curtailment : ℚ
  net1 : ℚ
  availability : ℚ
  gross2 : ℚ
  net2 : ℚ

/-- Stochastic layers of `generate_generation_data` for one row:
performance factor on gross; loss factor to a preliminary net; stochastic
curtailment subtracted from net (floored at 0); availability clipped to
`[85, 100]` and applied multiplicatively to both gross and net last.  -/
def genVals (cap gross0 perf loss u mag noise : ℚ) : GenVals :=
  let gross1 := gross0 * perf
  let net0 := gross1 * loss
  let curtailment := if u < gross1 / (cap + 0.000001) * 0.1 then mag * gross1 else 0
  let net1 := max (net0 - curtailment) 0
  let availability := clip (95 + noise) 85 100
  let af := availability / 100
  ⟨gross1, net0, curtailment, net1, availability, gross1 * af, net1 * af⟩

/-- Generation row at index `i`, given the driver rows and the five
stochastic vectors. -/
def genRowAt (asset_configs : List (String × AssetCfg)) (drivers : List DriverRow)
    (perf loss u mag noise : List ℚ) (i : ℕ) : GenRow :=
  let dr := drivers.getD i ⟨0, "", none, none⟩
  let cfg := (asset_configs.lookup dr.asset_id).getD defaultCfg
  let v := genVals cfg.capacity_mw (rowGross asset_configs dr)
    (perf.getD i 0) (loss.getD i 0) (u.getD i 0) (mag.getD i 0) (noise.getD i 0)
  ⟨dr.timestamp, dr.asset_id, v.gross2, v.net2, v.curtailment, v.availability, cfg.capacity_mw⟩

/-- Sort relation on generation rows. -/
def genRowLE (a b : GenRow) : Prop :=
  keyLE (a.timestamp, a.asset_id) (b.timestamp, b.asset_id)

instance : DecidableRel genRowLE := fun a b =>
  inferInstanceAs (Decidable (keyLE _ _))

instance : IsTotal GenRow genRowLE := ⟨fun a b => keyLE_total _ _⟩

instance : IsTrans GenRow genRowLE := ⟨fun _ _ _ => keyLE_trans⟩

/-- Stochastic tail of `generate_generation_data`: draw the five vectors
in source order (performance factor, loss factor, curtailment probability
draw, curtailment magnitude, availability noise — the magnitude vector is
drawn unconditionally, as both `np.where` branches are evaluated), build
the rows, and sort by `(timestamp, asset_id)`. -/
def genFinish (asset_configs : List (String × AssetCfg)) (drivers : List DriverRow)
    (r : RNG) : List GenRow :=
  let n := drivers.length
  let p1 := uniformVec 0.95 1 n r
  let p2 := uniformVec 0.9 0.95 n p1.2
  let p3 := randomVec n p2.2
  let p4 := uniformVec 0.05 0.15 n p3.2
  let p5 := normalVec 0 5 n p4.2
  List.insertionSort genRowLE
    ((List.range n).map (genRowAt asset_configs drivers p1.1 p2.1 p3.1 p4.1 p5.1))

/-- Model of `generate_generation_data(start_date, end_date,
asset_configs, weather_df, random_seed)`.  The asset-config dict is an
association list in insertion order; a supplied weather table is
left-joined on `(timestamp, asset_id)` (duplicate matches would overflow
the fixed-size numpy arrays of the source, raising `IndexError`), and
without one the synthetic wind/GHI patterns consume two extra draws before
the stochastic layers. -/
def generate_generation_data (start_date end_date : String)
    (asset_configs : List (String × AssetCfg)) (weather_df : Option (List WeatherRow))
    (random_seed : ℤ) (g0 : RNG) : Except String (List GenRow) :=
  match parseDateTime start_date, parseDateTime end_date with
  | none, _ => .error "ValueError: invalid isoformat string (start_date)"
  | some _, none => .error "ValueError: invalid isoformat string (end_date)"
  | some ts, some te =>
    let r0 := seedRNG random_seed
    let timestamps := datetimeRange ts te
    let asset_ids := asset_configs.map Prod.fst
    let base := timestamps.product asset_ids
    match weather_df with
    | some w =>
      if dupMatch base w then .error "IndexError: index out of bounds"
      else .ok (genFinish asset_configs (joinWeather base w) r0)
    | none =>
      let n := base.length
      let pw := normalVec 0 2 n r0
      let pc := uniformVec 0.7 1 n pw.2
      .ok (genFinish asset_configs ((List.range n).map (synthDriverAt base pw.1 pc.1)) pc.2)

/-! ## Partitioned writer (`save_weather_parquet`) -/

/-- Model of writing one file into a directory: an existing file of the
same name is overwritten in place, otherwise the file is created. -/
def writeFile {α : Type} (fs : List (String × α)) (name : String) (content : α) :
    List (String × α) :=
  if name ∈ fs.map Prod.fst then
    fs.map fun p => if p.1 = name then (name, content) else p
  else fs ++ [(name, content)]

/-- Calendar date (epoch-relative day number) of a row's timestamp,
model of `pl.col("timestamp").dt.date()`. -/
def dateOf (r : WeatherRow) : ℤ := r.timestamp.ediv 86400

/-- Partition file name: fixed prefix, ISO date, `.parquet` suffix. -/
def weatherFileName (d : ℤ) : String := "weather_" ++ isoDate d ++ ".parquet"

/-- The distinct dates of the table, ascending
(model of `df.select(dt.date()).unique().sort("date")`). -/
def uniqueDatesSorted (df : List WeatherRow) : List ℤ :=
  List.insertionSort (fun a b : ℤ => a ≤ b) (df.map dateOf).dedup

/-- Model of `save_weather_parquet(df, output_dir, partition_by_date)`:
with partitioning, one file per distinct calendar date, holding exactly
that date's rows; otherwise a single `weather_all.parquet`.  The directory
is a name-keyed file map (`mkdir` with `exist_ok=True` has no observable
effect in this model). -/
def save_weather_parquet (df : List WeatherRow) (partition_by_date : Bool)
    (fs : List (String × List WeatherRow)) : List (String × List WeatherRow) :=
  if partition_by_date then
    (uniqueDatesSorted df).foldl
      (fun acc d => writeFile acc (weatherFileName d) (df.filter (fun r => dateOf r == d))) fs
  else writeFile fs "weather_all.parquet" df

/-! ## List access helpers -/

theorem product_def {α β : Type} (l₁ : List α) (l₂ : List β) : l₁.product l₂ = l₁ ×ˢ l₂ := rfl

theorem map_getD_range {α : Type} (l : List α) (d : α) :
    (List.range l.length).map (fun i => l.getD i d) = l := by
  induction l with
  | nil => rfl
  | cons a t ih =>
    rw [List.length_cons, List.range_succ_eq_map, List.map_cons, List.map_map]
    have hcomp : ((fun i => (a :: t).getD i d) ∘ Nat.succ) = fun i => t.getD i d := by
      funext i
      rfl
    rw [hcomp, ih]
    rfl

theorem getD_map_range {α : Type} (f : ℕ → α) {n i : ℕ} (h : i < n) (d : α) :
    ((List.range n).map f).getD i d = f i := by
  rw [List.getD_eq_getElem?_getD, List.getElem?_map, List.getElem?_range h]
  rfl

theorem getD_mem_of_lt {α : Type} {l : List α} {i : ℕ} (h : i < l.length) (d : α) :
    l.getD i d ∈ l := by
  rw [List.getD_eq_getElem?_getD, List.getElem?_eq_getElem h, Option.getD_some]
  exact List.getElem_mem h

theorem getD_map_of_lt {α β : Type} (f : α → β) {l : List α} {i : ℕ} (h : i < l.length)
    (d : β) (d2 : α) : (l.map f).getD i d = f (l.getD i d2) := by
  rw [List.getD_eq_getElem?_getD, List.getElem?_map, List.getElem?_eq_getElem h]
  simp [List.getD_eq_getElem?_getD, List.getElem?_eq_getElem h]

theorem mem_of_lookup_eq_some {α β : Type} [BEq α] [LawfulBEq α] {l : List (α × β)}
    {a : α} {b : β} (h : l.lookup a = some b) : (a, b) ∈ l := by
  induction l with
  | nil => simp [List.lookup] at h
  | cons p t ih =>
    rw [List.lookup] at h
    cases hbeq : a == p.1 with
    | true =>
      simp only [hbeq] at h
      have ha : a = p.1 := eq_of_beq hbeq
      have hb : p.2 = b := by simpa using h
      subst ha
      rw [← hb]
      exact List.mem_cons_self _ _
    | false =>
      simp only [hbeq] at h
      exact List.mem_cons_of_mem _ (ih h)

theorem lookup_isSome_of_mem_keys {α β : Type} [BEq α] [LawfulBEq α] {l : List (α × β)}
    {a : α} (h : a ∈ l.map Prod.fst) : (l.lookup a).isSome := by
  induction l with
  | nil => simp at h
  | cons p t ih =>
    rw [List.lookup]
    cases hbeq : a == p.1 with
    | true => rfl
    | false =>
      show (List.lookup a t).isSome = true
      apply ih
      rcases List.mem_map.mp h with ⟨q, hq, hqa⟩
      rcases List.mem_cons.mp hq with hq1 | hq1
      · exfalso
        have : a = p.1 := by rw [← hqa, hq1]
        exact absurd (beq_iff_eq.mpr this) (by simp [hbeq])
      · exact List.mem_map.mpr ⟨q, hq1, hqa⟩

/-! ## Claim C1 -/

/-- Reference wind power curve, written clause-by-clause from the
specification: 0 below cut-in (3 m/s); cubic ramp `capacity·((s−3)/9)³` on
`[3, 12)`; full capacity on `[12, 25)`; 0 at and above cut-out (25 m/s). -/
def windCurveRef (capacity_mw : ℚ) (s : ℚ) : ℚ :=
  if s < 3 then 0
  else if s < 12 then capacity_mw * ((s - 3) / 9) ^ 3
  else if s < 25 then capacity_mw
  else 0

theorem windPowerPoint_eq_ref (c s : ℚ) : windPowerPoint c s = windCurveRef c s := by
  unfold windPowerPoint windCurveRef
  rcases lt_or_le s 3 with h3 | h3
  · rw [if_neg (by intro h; linarith : ¬ 25 ≤ s),
      if_neg (by rintro ⟨h, _⟩; linarith : ¬ (12 ≤ s ∧ s < 25)),
      if_neg (by rintro ⟨h, _⟩; linarith : ¬ (3 ≤ s ∧ s < 12)), if_pos h3]
  · rcases lt_or_le s 12 with h12 | h12
    · rw [if_neg (by intro h; linarith : ¬ 25 ≤ s),
        if_neg (by rintro ⟨h, _⟩; linarith : ¬ (12 ≤ s ∧ s < 25)),
        if_pos ⟨h3, h12⟩, if_neg (by intro h; linarith : ¬ s < 3), if_pos h12]
    · rcases lt_or_le s 25 with h25 | h25
      · rw [if_neg (by intro h; linarith : ¬ 25 ≤ s), if_pos ⟨h12, h25⟩,
          if_neg (by intro h; linarith : ¬ s < 3),
          if_neg (by intro h; linarith : ¬ s < 12), if_pos h25]
      · rw [if_pos h25, if_neg (by intro h; linarith : ¬ s < 3),
          if_neg (by intro h; linarith : ¬ s < 12),
          if_neg (by intro h; linarith : ¬ s < 25)]

/-- C1: `wind_power_curve` computes the piecewise reference curve
element-wise over the input vector with a scalar capacity, returning a
same-shape vector; at the boundaries, `wind_power_curve(3.0, 100) = 0`
(the ramp formula vanishes at exactly 3), `wind_power_curve(12.0, 100) =
100`, and `wind_power_curve(25.0, 100) = 0`. -/
theorem claim_C1_wind_power_curve :
    (∀ (xs : List ℚ) (c : ℚ), wind_power_curve xs c = xs.map (windCurveRef c) ∧
      (wind_power_curve xs c).length = xs.length) ∧
    (∀ s c : ℚ, windPowerPoint c s = windCurveRef c s) ∧
    wind_power_curve [2.99, 3, 6, 12, 24.99, 25] 100
      = [0, 0, 100 * ((6 - 3) / 9) ^ 3, 100, 100, 0] := by
  refine ⟨fun xs c => ⟨?_, by simp [wind_power_curve]⟩, fun s c => windPowerPoint_eq_ref c s, ?_⟩
  · unfold wind_power_curve
    exact List.map_congr_left fun s _ => windPowerPoint_eq_ref c s
  · unfold wind_power_curve windPowerPoint
    norm_num

/-! ## Claim C2 -/

/-- Reference solar output, written from the specification:
`clip(ghi / 1000 × capacity × 0.85, 0, capacity)`. -/
def solarRef (capacity_mw : ℚ) (g : ℚ) : ℚ :=
  clip (g / 1000 * capacity_mw * 0.85) 0 capacity_mw

theorem solarPowerPoint_eq_ref (c g : ℚ) : solarPowerPoint c g = solarRef c g := rfl

/-- C2: `solar_power_output` equals `clip(ghi/1000 × capacity × 0.85, 0,
capacity)` element-wise; a negative GHI yields 0 (tolerated silently),
`solar_power_output(500, 40) = 17`, and `solar_power_output(1500, 40) =
40` (capacity ceiling). -/
theorem claim_C2_solar_power_output :
    (∀ (xs : List ℚ) (c : ℚ), solar_power_output xs c = xs.map (solarRef c)) ∧
    (∀ g c : ℚ, 0 ≤ c → g < 0 → solarPowerPoint c g = 0) ∧
    solar_power_output [-100, 0, 500, 1000, 1500] 40 = [0, 0, 17, 34, 40] := by
  refine ⟨fun xs c => rfl, fun g c hc hg => solarPowerPoint_of_nonpos c g hc (le_of_lt hg), ?_⟩
  have h1 : solarPowerPoint 40 (-100) = 0 :=
    solarPowerPoint_of_nonpos _ _ (by norm_num) (by norm_num)
  have h2 : solarPowerPoint 40 0 = 0 :=
    solarPowerPoint_of_nonpos _ _ (by norm_num) (le_refl 0)
  have h3 : solarPowerPoint 40 500 = 17 := by
    unfold solarPowerPoint clip
    rw [show (500 : ℚ) / 1000 * 40 * 0.85 = 17 by norm_num,
      max_eq_left (by norm_num : (0:ℚ) ≤ 17), min_eq_left (by norm_num : (17:ℚ) ≤ 40)]
  have h4 : solarPowerPoint 40 1000 = 34 := by
    unfold solarPowerPoint clip
    rw [show (1000 : ℚ) / 1000 * 40 * 0.85 = 34 by norm_num,
      max_eq_left (by norm_num : (0:ℚ) ≤ 34), min_eq_left (by norm_num : (34:ℚ) ≤ 40)]
  have h5 : solarPowerPoint 40 1500 = 40 := by
    unfold solarPowerPoint clip
    rw [show (1500 : ℚ) / 1000 * 40 * 0.85 = 51 by norm_num,
      max_eq_left (by norm_num : (0:ℚ) ≤ 51), min_eq_right (by norm_num : (40:ℚ) ≤ 51)]
  simp [solar_power_output, h1, h2, h3, h4, h5]

/-- C2 witness: the negative-GHI clause at the concrete input `(-100, 40)`. -/
theorem claim_C2_witness : solarPowerPoint 40 (-100) = 0 :=
  claim_C2_solar_power_output.2.1 (-100) 40 (by norm_num) (by norm_num)

/-! ## Claim C3 -/

/-- C3: both synthesizers are deterministic in their arguments — the
output is a function of the dates, asset count / configs, optional
weather table and seed alone, independent of the incoming global
random-generator state, which `np.random.seed` replaces. -/
theorem claim_C3_determinism (start_date end_date : String) (asset_count : ℤ)
    (asset_configs : List (String × AssetCfg)) (weather_df : Option (List WeatherRow))
    (random_seed : ℤ) (g g' : RNG) :
    generate_weather_data start_date end_date asset_count random_seed g =
      generate_weather_data start_date end_date asset_count random_seed g' ∧
    generate_generation_data start_date end_date asset_configs weather_df random_seed g =
      generate_generation_data start_date end_date asset_configs weather_df random_seed g' :=
  ⟨rfl, rfl⟩

/-! ## Claim C5 -/

theorem weatherRowAt_bounds (base : List (ℤ × String)) (dirOf : List (String × ℚ))
    (wn dc cf tn pn hn : List ℚ) (i : ℕ) :
    (0 ≤ (weatherRowAt base dirOf wn dc cf tn pn hn i).wind_speed_mps ∧
      (weatherRowAt base dirOf wn dc cf tn pn hn i).wind_speed_mps ≤ 25) ∧
    (0 ≤ (weatherRowAt base dirOf wn dc cf tn pn hn i).wind_direction_deg ∧
      (weatherRowAt base dirOf wn dc cf tn pn hn i).wind_direction_deg < 360) ∧
    (0 ≤ (weatherRowAt base dirOf wn dc cf tn pn hn i).ghi ∧
      (weatherRowAt base dirOf wn dc cf tn pn hn i).ghi ≤ 1000) ∧
    (20 ≤ (weatherRowAt base dirOf wn dc cf tn pn hn i).relative_humidity ∧
      (weatherRowAt base dirOf wn dc cf tn pn hn i).relative_humidity ≤ 95) := by
  unfold weatherRowAt
  dsimp only
  exact ⟨⟨lo_le_clip _ (by norm_num), clip_le_hi _ _ _⟩,
    ⟨qmod_nonneg _ (by norm_num), qmod_lt _ (by norm_num)⟩,
    ⟨lo_le_clip _ (by norm_num), clip_le_hi _ _ _⟩,
    ⟨lo_le_clip _ (by norm_num), clip_le_hi _ _ _⟩⟩

theorem generate_weather_data_ok {s e : String} {ac seed : ℤ} {g : RNG}
    {tbl : List WeatherRow}
    (hok : generate_weather_data s e ac seed g = .ok tbl) :
    ∃ ts te, parseDateTime s = some ts ∧ parseDateTime e = some te ∧
      tbl = weatherTable ts te ac seed := by
  unfold generate_weather_data at hok
  cases hs : parseDateTime s with
  | none => rw [hs] at hok; exact absurd hok (by simp)
  | some ts =>
    cases he : parseDateTime e with
    | none => rw [hs, he] at hok; exact absurd hok (by simp)
    | some te =>
      rw [hs, he] at hok
      simp only [Except.ok.injEq] at hok
      exact ⟨ts, te, rfl, rfl, hok.symm⟩

/-- C5: every row of the weather table satisfies
`0 ≤ wind_speed_mps ≤ 25`, `0 ≤ ghi ≤ 1000`, `20 ≤ relative_humidity ≤
95`, and `0 ≤ wind_direction_deg < 360`. -/
theorem claim_C5_weather_bounds (s e : String) (ac seed : ℤ) (g : RNG)
    (tbl : List WeatherRow)
    (hok : generate_weather_data s e ac seed g = .ok tbl) :
    ∀ row ∈ tbl,
      (0 ≤ row.wind_speed_mps ∧ row.wind_speed_mps ≤ 25) ∧
      (0 ≤ row.ghi ∧ row.ghi ≤ 1000) ∧
      (20 ≤ row.relative_humidity ∧ row.relative_humidity ≤ 95) ∧
      (0 ≤ row.wind_direction_deg ∧ row.wind_direction_deg < 360) := by
  rcases generate_weather_data_ok hok with ⟨ts, te, _, _, htbl⟩
  subst htbl
  intro row hrow
  unfold weatherTable at hrow
  have hrow2 := (List.perm_insertionSort weatherRowLE _).mem_iff.mp hrow
  rcases List.mem_map.mp hrow2 with ⟨i, _, hrow3⟩
  subst hrow3
  obtain ⟨h1, h2, h3, h4⟩ := weatherRowAt_bounds _ _ _ _ _ _ _ _ i
  exact ⟨h1, h3, h4, h2⟩

/-! ## Claims C4 and C10 -/

theorem lookupCfg_cap_nonneg {cfgs : List (String × AssetCfg)} (a : String)
    (hcap : ∀ p ∈ cfgs, 0 ≤ p.2.capacity_mw) :
    0 ≤ ((cfgs.lookup a).getD defaultCfg).capacity_mw := by
  cases hl : cfgs.lookup a with
  | none => exact le_refl 0
  | some cfg => exact hcap (a, cfg) (mem_of_lookup_eq_some hl)

theorem rowGross_bounds (cfgs : List (String × AssetCfg)) (dr : DriverRow)
    (hcap : ∀ p ∈ cfgs, 0 ≤ p.2.capacity_mw) :
    0 ≤ rowGross cfgs dr ∧
    rowGross cfgs dr ≤ ((cfgs.lookup dr.asset_id).getD defaultCfg).capacity_mw := by
  have hc := lookupCfg_cap_nonneg dr.asset_id hcap
  unfold rowGross
  dsimp only
  split_ifs
  · have ew : (wind_power_curve [dr.wind_speed_mps.getD 0]
        ((cfgs.lookup dr.asset_id).getD defaultCfg).capacity_mw).getD 0 0
        = windPowerPoint ((cfgs.lookup dr.asset_id).getD defaultCfg).capacity_mw
            (dr.wind_speed_mps.getD 0) := rfl
    rw [ew]
    exact ⟨windPowerPoint_nonneg _ _ hc, windPowerPoint_le_capacity _ _ hc⟩
  · have es : (solar_power_output [dr.ghi.getD 0]
        ((cfgs.lookup dr.asset_id).getD defaultCfg).capacity_mw).getD 0 0
        = solarPowerPoint ((cfgs.lookup dr.asset_id).getD defaultCfg).capacity_mw
            (dr.ghi.getD 0) := rfl
    rw [es]
    exact ⟨solarPowerPoint_nonneg _ _ hc, solarPowerPoint_le_capacity _ _⟩

theorem genVals_bounds {cap gross0 perf loss u mag noise : ℚ}
    (hcap : 0 ≤ cap) (hg0 : 0 ≤ gross0) (hgc : gross0 ≤ cap)
    (hp0 : 0 ≤ perf) (hp1 : perf ≤ 1)
    (hl0 : 0 ≤ loss) (hl1 : loss ≤ 1)
    (hm0 : 0 ≤ mag) :
    0 ≤ (genVals cap gross0 perf loss u mag noise).net2 ∧
    (genVals cap gross0 perf loss u mag noise).net2
      ≤ (genVals cap gross0 perf loss u mag noise).gross2 ∧
    (genVals cap gross0 perf loss u mag noise).gross2 ≤ cap ∧
    0 ≤ (genVals cap gross0 perf loss u mag noise).curtailment ∧
    85 ≤ (genVals cap gross0 perf loss u mag noise).availability ∧
    (genVals cap gross0 perf loss u mag noise).availability ≤ 100 ∧
    (genVals cap gross0 perf loss u mag noise).gross1 ≤ cap := by
  have hg1 : (0:ℚ) ≤ gross0 * perf := mul_nonneg hg0 hp0
  have hg1c : gross0 * perf ≤ cap := by
    calc gross0 * perf ≤ cap * 1 := mul_le_mul hgc hp1 hp0 hcap
      _ = cap := mul_one cap
  have hav85 : (85:ℚ) ≤ clip (95 + noise) 85 100 := lo_le_clip _ (by norm_num)
  have hav100 : clip (95 + noise) 85 100 ≤ 100 := clip_le_hi _ _ _
  have haf0 : (0:ℚ) ≤ clip (95 + noise) 85 100 / 100 :=
    div_nonneg (by linarith) (by norm_num)
  have haf1 : clip (95 + noise) 85 100 / 100 ≤ 1 := by
    rw [div_le_one (by norm_num : (0:ℚ) < 100)]
    linarith
  have hcurt0 : (0:ℚ) ≤ (genVals cap gross0 perf loss u mag noise).curtailment := by
    show (0:ℚ) ≤ if u < gross0 * perf / (cap + 0.000001) * 0.1 then mag * (gross0 * perf) else 0
    split_ifs
    · exact mul_nonneg hm0 hg1
    · exact le_refl 0
  have hn0g : gross0 * perf * loss ≤ gross0 * perf := by
    calc gross0 * perf * loss ≤ gross0 * perf * 1 := mul_le_mul_of_nonneg_left hl1 hg1
      _ = gross0 * perf := mul_one _
  have hn1g : max (gross0 * perf * loss
        - (genVals cap gross0 perf loss u mag noise).curtailment) 0 ≤ gross0 * perf :=
    max_le (by linarith) hg1
  have hn10 : (0:ℚ) ≤ max (gross0 * perf * loss
      - (genVals cap gross0 perf loss u mag noise).curtailment) 0 := le_max_right _ _
  refine ⟨mul_nonneg hn10 haf0, mul_le_mul_of_nonneg_right hn1g haf0, ?_, hcurt0,
    hav85, hav100, hg1c⟩
  calc gross0 * perf * (clip (95 + noise) 85 100 / 100)
      ≤ cap * (clip (95 + noise) 85 100 / 100) := mul_le_mul_of_nonneg_right hg1c haf0
    _ ≤ cap * 1 := mul_le_mul_of_nonneg_left haf1 hcap
    _ = cap := mul_one cap

theorem mem_genFinish_bounds {cfgs : List (String × AssetCfg)} {drivers : List DriverRow}
    {r : RNG} {row : GenRow} (h : row ∈ genFinish cfgs drivers r) :
    ∃ (dr : DriverRow) (perf loss u mag noise : ℚ),
      dr ∈ drivers ∧
      0.95 ≤ perf ∧ perf ≤ 1 ∧ 0.9 ≤ loss ∧ loss ≤ 0.95 ∧ 0.05 ≤ mag ∧ mag ≤ 0.15 ∧
      row = ⟨dr.timestamp, dr.asset_id,
        (genVals ((cfgs.lookup dr.asset_id).getD defaultCfg).capacity_mw
          (rowGross cfgs dr) perf loss u mag noise).gross2,
        (genVals ((cfgs.lookup dr.asset_id).getD defaultCfg).capacity_mw
          (rowGross cfgs dr) perf loss u mag noise).net2,
        (genVals ((cfgs.lookup dr.asset_id).getD defaultCfg).capacity_mw
          (rowGross cfgs dr) perf loss u mag noise).curtailment,
        (genVals ((cfgs.lookup dr.asset_id).getD defaultCfg).capacity_mw
          (rowGross cfgs dr) perf loss u mag noise).availability,
        ((cfgs.lookup dr.asset_id).getD defaultCfg).capacity_mw⟩ := by
  unfold genFinish at h
  have h2 := (List.perm_insertionSort genRowLE _).mem_iff.mp h
  rcases List.mem_map.mp h2 with ⟨i, hi, hEq⟩
  have hin : i < drivers.length := List.mem_range.mp hi
  refine ⟨drivers.getD i ⟨0, "", none, none⟩,
    (uniformVec 0.95 1 drivers.length r).1.getD i 0,
    (uniformVec 0.9 0.95 drivers.length
      (uniformVec 0.95 1 drivers.length r).2).1.getD i 0,
    (randomVec drivers.length (uniformVec 0.9 0.95 drivers.length
      (uniformVec 0.95 1 drivers.length r).2).2).1.getD i 0,
    (uniformVec 0.05 0.15 drivers.length (randomVec drivers.length
      (uniformVec 0.9 0.95 drivers.length
        (uniformVec 0.95 1 drivers.length r).2).2).2).1.getD i 0,
    (normalVec 0 5 drivers.length (uniformVec 0.05 0.15 drivers.length
      (randomVec drivers.length (uniformVec 0.9 0.95 drivers.length
        (uniformVec 0.95 1 drivers.length r).2).2).2).2).1.getD i 0,
    getD_mem_of_lt hin _,
    (uniformVec_getD_bounds _ hin (by norm_num)).1,
    le_trans (uniformVec_getD_bounds _ hin (by norm_num)).2 (by norm_num),
    (uniformVec_getD_bounds _ hin (by norm_num)).1,
    (uniformVec_getD_bounds _ hin (by norm_num)).2,
    (uniformVec_getD_bounds _ hin (by norm_num)).1,
    (uniformVec_getD_bounds _ hin (by norm_num)).2,
    ?_⟩
  rw [← hEq]
  rfl

theorem generate_generation_data_ok {s e : String} {cfgs : List (String × AssetCfg)}
    {w? : Option (List WeatherRow)} {seed : ℤ} {g : RNG} {tbl : List GenRow}
    (hok : generate_generation_data s e cfgs w? seed g = .ok tbl) :
    ∃ drivers r, tbl = genFinish cfgs drivers r ∧
      ∀ dr ∈ drivers, dr.asset_id ∈ cfgs.map Prod.fst := by
  unfold generate_generation_data at hok
  cases hs : parseDateTime s with
  | none => rw [hs] at hok; exact absurd hok (by simp)
  | some ts =>
  cases he : parseDateTime e with
  | none => rw [hs, he] at hok; exact absurd hok (by simp)
  | some te =>
  rw [hs, he] at hok
  cases w? with
  | some w =>
    simp only at hok
    split at hok
    · exact absurd hok (by simp)
    · simp only [Except.ok.injEq] at hok
      refine ⟨_, _, hok.symm, ?_⟩
      intro dr hdr
      rcases List.mem_map.mp hdr with ⟨ta, hta, hEq⟩
      have hid : dr.asset_id = ta.2 := by
        rw [← hEq]
        cases hfind : w.find? (keyMatch ta.1 ta.2) <;> rfl
      rw [hid]
      have : (ta.1, ta.2) ∈ (datetimeRange ts te).product (cfgs.map Prod.fst) := hta
      exact (List.mem_product.mp this).2
  | none =>
    simp only [Except.ok.injEq] at hok
    refine ⟨_, _, hok.symm, ?_⟩
    intro dr hdr
    rcases List.mem_map.mp hdr with ⟨i, hi, hEq⟩
    have hin : i < ((datetimeRange ts te).product (cfgs.map Prod.fst)).length :=
      List.mem_range.mp hi
    have hid : dr.asset_id
        = (((datetimeRange ts te).product (cfgs.map Prod.fst)).getD i (0, "")).2 := by
      rw [← hEq]
      rfl
    rw [hid]
    have hmem := getD_mem_of_lt hin ((0 : ℤ), "")
    have : ((((datetimeRange ts te).product (cfgs.map Prod.fst)).getD i (0, "")).1,
        (((datetimeRange ts te).product (cfgs.map Prod.fst)).getD i (0, "")).2)
        ∈ (datetimeRange ts te).product (cfgs.map Prod.fst) := hmem
    exact (List.mem_product.mp this).2

/-- C4: every generation row satisfies `0 ≤ net ≤ gross ≤ capacity`,
`curtailment ≥ 0` and `85 ≤ availability ≤ 100`; mechanically, the gross
value entering the final availability scaling (`gross1`, after the
performance factor) already never exceeds capacity, and the scaling factor
is at most 1. -/
theorem claim_C4_generation_invariants (s e : String) (cfgs : List (String × AssetCfg))
    (w? : Option (List WeatherRow)) (seed : ℤ) (g : RNG) (tbl : List GenRow)
    (hcap : ∀ p ∈ cfgs, 0 ≤ p.2.capacity_mw)
    (hok : generate_generation_data s e cfgs w? seed g = .ok tbl) :
    (∀ row ∈ tbl,
      0 ≤ row.net_generation_mwh ∧
      row.net_generation_mwh ≤ row.gross_generation_mwh ∧
      row.gross_generation_mwh ≤ row.asset_capacity_mw ∧
      0 ≤ row.curtailment_mwh ∧
      85 ≤ row.availability_pct ∧ row.availability_pct ≤ 100) ∧
    (∀ cap gross0 perf loss u mag noise : ℚ, 0 ≤ cap → 0 ≤ gross0 → gross0 ≤ cap →
      0 ≤ perf → perf ≤ 1 →
      (genVals cap gross0 perf loss u mag noise).gross1 ≤ cap ∧
      (genVals cap gross0 perf loss u mag noise).availability / 100 ≤ 1) := by
  constructor
  · rcases generate_generation_data_ok hok with ⟨drivers, r, htbl, _⟩
    subst htbl
    intro row hrow
    rcases mem_genFinish_bounds hrow with
      ⟨dr, perf, loss, u, mag, noise, _, hperf0, hperf1, hloss0, hloss1, hmag0, _, hrow_eq⟩
    subst hrow_eq
    obtain ⟨hg0, hgc⟩ := rowGross_bounds cfgs dr hcap
    have hc := lookupCfg_cap_nonneg dr.asset_id hcap
    obtain ⟨b1, b2, b3, b4, b5, b6, _⟩ :=
      @genVals_bounds ((cfgs.lookup dr.asset_id).getD defaultCfg).capacity_mw
        (rowGross cfgs dr) perf loss u mag noise hc hg0 hgc
        (by linarith) hperf1 (by linarith) (by linarith) (by linarith)
    exact ⟨b1, b2, b3, b4, b5, b6⟩
  · intro cap gross0 perf loss u mag noise hcap0 hg0 hgc hp0 hp1
    constructor
    · show gross0 * perf ≤ cap
      calc gross0 * perf ≤ cap * 1 := mul_le_mul hgc hp1 hp0 hcap0
        _ = cap := mul_one cap
    · show clip (95 + noise) 85 100 / 100 ≤ 1
      rw [div_le_one (by norm_num : (0:ℚ) < 100)]
      exact le_trans (clip_le_hi _ _ _) (by norm_num)

/-- C4 witness: a one-hour, two-asset invocation with the source's asset
configurations (one wind, one solar). -/
theorem claim_C4_witness :
    (∀ row ∈ (generate_generation_data "2023-01-01" "2023-01-01"
        [("ASSET_001", ⟨50, "wind"⟩), ("ASSET_006", ⟨30, "solar"⟩)] none 42
        (seedRNG 0)).toOption.getD [],
      0 ≤ row.net_generation_mwh ∧
      row.net_generation_mwh ≤ row.gross_generation_mwh ∧
      row.gross_generation_mwh ≤ row.asset_capacity_mw ∧
      0 ≤ row.curtailment_mwh ∧
      85 ≤ row.availability_pct ∧ row.availability_pct ≤ 100) ∧
    (∀ cap gross0 perf loss u mag noise : ℚ, 0 ≤ cap → 0 ≤ gross0 → gross0 ≤ cap →
      0 ≤ perf → perf ≤ 1 →
      (genVals cap gross0 perf loss u mag noise).gross1 ≤ cap ∧
      (genVals cap gross0 perf loss u mag noise).availability / 100 ≤ 1) :=
  claim_C4_generation_invariants "2023-01-01" "2023-01-01"
    [("ASSET_001", ⟨50, "wind"⟩), ("ASSET_006", ⟨30, "solar"⟩)] none 42 (seedRNG 0) _
    (by decide) rfl

/-- C10: the `asset_capacity_mw` column of every generation row equals
exactly the configured capacity of that row's asset, untouched by the
performance, loss, curtailment and availability factors applied to the
generation columns. -/
theorem claim_C10_capacity_column (s e : String) (cfgs : List (String × AssetCfg))
    (w? : Option (List WeatherRow)) (seed : ℤ) (g : RNG) (tbl : List GenRow)
    (hok : generate_generation_data s e cfgs w? seed g = .ok tbl) :
    ∀ row ∈ tbl,
      (cfgs.lookup row.asset_id).map AssetCfg.capacity_mw = some row.asset_capacity_mw := by
  rcases generate_generation_data_ok hok with ⟨drivers, r, htbl, hkeys⟩
  subst htbl
  intro row hrow
  rcases mem_genFinish_bounds hrow with
    ⟨dr, perf, loss, u, mag, noise, hdr, _, _, _, _, _, _, hrow_eq⟩
  subst hrow_eq
  dsimp only
  have hsome := lookup_isSome_of_mem_keys (hkeys dr hdr)
  cases hl : cfgs.lookup dr.asset_id with
  | none => rw [hl] at hsome; exact absurd hsome (by simp)
  | some cfg => rfl

/-- C10 witness: the first row of the same concrete invocation as the C4
witness. -/
theorem claim_C10_witness :
    ([("ASSET_001", (⟨50, "wind"⟩ : AssetCfg)), ("ASSET_006", ⟨30, "solar"⟩)].lookup
        (((generate_generation_data "2023-01-01" "2023-01-01"
          [("ASSET_001", ⟨50, "wind"⟩), ("ASSET_006", ⟨30, "solar"⟩)] none 42
          (seedRNG 0)).toOption.getD []).getD 0
            ⟨0, "", 0, 0, 0, 0, 0⟩).asset_id).map AssetCfg.capacity_mw
      = some (((generate_generation_data "2023-01-01" "2023-01-01"
          [("ASSET_001", ⟨50, "wind"⟩), ("ASSET_006", ⟨30, "solar"⟩)] none 42
          (seedRNG 0)).toOption.getD []).getD 0
            ⟨0, "", 0, 0, 0, 0, 0⟩).asset_capacity_mw :=
  claim_C10_capacity_column "2023-01-01" "2023-01-01"
    [("ASSET_001", ⟨50, "wind"⟩), ("ASSET_006", ⟨30, "solar"⟩)] none 42 (seedRNG 0)
    ((generate_generation_data "2023-01-01" "2023-01-01"
      [("ASSET_001", ⟨50, "wind"⟩), ("ASSET_006", ⟨30, "solar"⟩)] none 42
      (seedRNG 0)).toOption.getD [])
    rfl _ (getD_mem_of_lt (by decide) ⟨0, "", 0, 0, 0, 0, 0⟩)

/-- C5 witness: the first row of a concrete invocation over six hours and
two assets. -/
theorem claim_C5_witness :
    (0 ≤ (((generate_weather_data "2023-06-01" "2023-06-01T05:00:00" 2 7
        (seedRNG 0)).toOption.getD []).getD 0
          ⟨0, "", 0, 0, 0, 0, 0, 0⟩).wind_speed_mps ∧
      (((generate_weather_data "2023-06-01" "2023-06-01T05:00:00" 2 7
        (seedRNG 0)).toOption.getD []).getD 0
          ⟨0, "", 0, 0, 0, 0, 0, 0⟩).wind_speed_mps ≤ 25) ∧
    (0 ≤ (((generate_weather_data "2023-06-01" "2023-06-01T05:00:00" 2 7
        (seedRNG 0)).toOption.getD []).getD 0 ⟨0, "", 0, 0, 0, 0, 0, 0⟩).ghi ∧
      (((generate_weather_data "2023-06-01" "2023-06-01T05:00:00" 2 7
        (seedRNG 0)).toOption.getD []).getD 0 ⟨0, "", 0, 0, 0, 0, 0, 0⟩).ghi ≤ 1000) ∧
    (20 ≤ (((generate_weather_data "2023-06-01" "2023-06-01T05:00:00" 2 7
        (seedRNG 0)).toOption.getD []).getD 0
          ⟨0, "", 0, 0, 0, 0, 0, 0⟩).relative_humidity ∧
      (((generate_weather_data "2023-06-01" "2023-06-01T05:00:00" 2 7
        (seedRNG 0)).toOption.getD []).getD 0
          ⟨0, "", 0, 0, 0, 0, 0, 0⟩).relative_humidity ≤ 95) ∧
    (0 ≤ (((generate_weather_data "2023-06-01" "2023-06-01T05:00:00" 2 7
        (seedRNG 0)).toOption.getD []).getD 0
          ⟨0, "", 0, 0, 0, 0, 0, 0⟩).wind_direction_deg ∧
      (((generate_weather_data "2023-06-01" "2023-06-01T05:00:00" 2 7
        (seedRNG 0)).toOption.getD []).getD 0
          ⟨0, "", 0, 0, 0, 0, 0, 0⟩).wind_direction_deg < 360) :=
  claim_C5_weather_bounds "2023-06-01" "2023-06-01T05:00:00" 2 7 (seedRNG 0)
    ((generate_weather_data "2023-06-01" "2023-06-01T05:00:00" 2 7
      (seedRNG 0)).toOption.getD [])
    rfl _ (getD_mem_of_lt (by decide) ⟨0, "", 0, 0, 0, 0, 0, 0⟩)

/-! ## Claim C6 -/

theorem weatherTable_nil_of_nonpos {ac : ℤ} (h : ac ≤ 0) (ts te seed : ℤ) :
    weatherTable ts te ac seed = [] := by
  unfold weatherTable
  rw [Int.toNat_of_nonpos h]
  simp [product_def]

theorem weatherTable_nil_of_lt {ts te : ℤ} (h : te < ts) (ac seed : ℤ) :
    weatherTable ts te ac seed = [] := by
  unfold weatherTable datetimeRange
  rw [if_pos h]
  simp [product_def]

theorem genFinish_nil (cfgs : List (String × AssetCfg)) (r : RNG) :
    genFinish cfgs [] r = [] := rfl

/-- C6 (amended): unparseable start/end dates fail fast with a descriptive
error before any table is built, in both generators; but a non-positive
asset count (weather) or an empty asset-config mapping (generation) is
tolerated — the call succeeds with a zero-row table — and an end date
strictly before the start date yields an empty time grid and hence an
empty table rather than an error. -/
theorem claim_C6_validation :
    (∀ (s e : String) (ac seed : ℤ) (g : RNG), parseDateTime s = none →
      generate_weather_data s e ac seed g
        = .error "ValueError: invalid isoformat string (start_date)") ∧
    (∀ (s e : String) (ac seed : ℤ) (g : RNG) (ts : ℤ), parseDateTime s = some ts →
      parseDateTime e = none →
      generate_weather_data s e ac seed g
        = .error "ValueError: invalid isoformat string (end_date)") ∧
    (∀ (s e : String) (cfgs : List (String × AssetCfg)) (w? : Option (List WeatherRow))
        (seed : ℤ) (g : RNG), parseDateTime s = none →
      generate_generation_data s e cfgs w? seed g
        = .error "ValueError: invalid isoformat string (start_date)") ∧
    (∀ (s e : String) (cfgs : List (String × AssetCfg)) (w? : Option (List WeatherRow))
        (seed : ℤ) (g : RNG) (ts : ℤ), parseDateTime s = some ts →
      parseDateTime e = none →
      generate_generation_data s e cfgs w? seed g
        = .error "ValueError: invalid isoformat string (end_date)") ∧
    (∀ (s e : String) (ac seed : ℤ) (g : RNG) (ts te : ℤ),
      parseDateTime s = some ts → parseDateTime e = some te → ac ≤ 0 →
      generate_weather_data s e ac seed g = .ok []) ∧
    (∀ (s e : String) (ac seed : ℤ) (g : RNG) (ts te : ℤ),
      parseDateTime s = some ts → parseDateTime e = some te → te < ts →
      generate_weather_data s e ac seed g = .ok []) ∧
    (∀ (s e : String) (cfgs : List (String × AssetCfg)) (w? : Option (List WeatherRow))
        (seed : ℤ) (g : RNG) (ts te : ℤ),
      parseDateTime s = some ts → parseDateTime e = some te → te < ts →
      generate_generation_data s e cfgs w? seed g = .ok []) ∧
    (∀ (s e : String) (w? : Option (List WeatherRow)) (seed : ℤ) (g : RNG) (ts te : ℤ),
      parseDateTime s = some ts → parseDateTime e = some te →
      generate_generation_data s e [] w? seed g = .ok []) := by
  refine ⟨?_, ?_, ?_, ?_, ?_, ?_, ?_, ?_⟩
  · intro s e ac seed g h
    unfold generate_weather_data
    rw [h]
  · intro s e ac seed g ts h1 h2
    unfold generate_weather_data
    rw [h1, h2]
  · intro s e cfgs w? seed g h
    unfold generate_generation_data
    rw [h]
  · intro s e cfgs w? seed g ts h1 h2
    unfold generate_generation_data
    rw [h1, h2]
  · intro s e ac seed g ts te h1 h2 hac
    unfold generate_weather_data
    rw [h1, h2]
    show Except.ok (weatherTable ts te ac seed) = Except.ok []
    rw [weatherTable_nil_of_nonpos hac]
  · intro s e ac seed g ts te h1 h2 hlt
    unfold generate_weather_data
    rw [h1, h2]
    show Except.ok (weatherTable ts te ac seed) = Except.ok []
    rw [weatherTable_nil_of_lt hlt]
  · intro s e cfgs w? seed g ts te h1 h2 hlt
    unfold generate_generation_data
    rw [h1, h2]
    have hbase : (datetimeRange ts te).product (cfgs.map Prod.fst) = [] := by
      unfold datetimeRange
      rw [if_pos hlt, product_def]
      exact List.nil_product _
    cases w? with
    | some w =>
      simp only [hbase]
      rfl
    | none =>
      simp only [hbase]
      rfl
  · intro s e w? seed g ts te h1 h2
    unfold generate_generation_data
    rw [h1, h2]
    have hbase : (datetimeRange ts te).product (([] : List (String × AssetCfg)).map Prod.fst)
        = [] := by
      rw [product_def]
      exact List.product_nil _
    cases w? with
    | some w =>
      simp only [hbase]
      rfl
    | none =>
      simp only [hbase]
      rfl

/-- C6 counterexample: a non-positive asset count does not fail fast — the
weather generator returns a (zero-row) table. -/
theorem claim_C6_counterexample :
    (generate_weather_data "2023-01-01" "2023-01-02" 0 42 (seedRNG 0)).toOption
      = some [] := rfl

/-- C6 witness: each clause of the amended claim at a concrete input. -/
theorem claim_C6_witness :
    generate_weather_data "2023-13-01" "2023-01-02" 3 42 (seedRNG 0)
      = .error "ValueError: invalid isoformat string (start_date)" ∧
    generate_generation_data "2023-01-01" "bad-date" ASSET_CONFIGS none 42 (seedRNG 0)
      = .error "ValueError: invalid isoformat string (end_date)" ∧
    generate_weather_data "2023-01-01" "2023-01-02" (-5) 42 (seedRNG 0) = .ok [] ∧
    generate_weather_data "2023-01-02" "2023-01-01" 3 42 (seedRNG 0) = .ok [] ∧
    generate_generation_data "2023-01-02" "2023-01-01" ASSET_CONFIGS none 42 (seedRNG 0)
      = .ok [] ∧
    generate_generation_data "2023-01-01" "2023-01-02" [] none 42 (seedRNG 0) = .ok [] :=
  ⟨claim_C6_validation.1 _ _ _ _ _ rfl,
   claim_C6_validation.2.2.2.1 _ _ _ _ _ _ _ rfl rfl,
   claim_C6_validation.2.2.2.2.1 _ _ _ _ _ _ _ rfl rfl (by decide),
   claim_C6_validation.2.2.2.2.2.1 _ _ _ _ _ _ _ rfl rfl (by decide),
   claim_C6_validation.2.2.2.2.2.2.1 _ _ _ _ _ _ _ _ rfl rfl (by decide),
   claim_C6_validation.2.2.2.2.2.2.2 _ _ _ _ _ _ _ rfl rfl⟩

/-! ## Claim C7 -/

theorem keyMatch_eq_decide (t : ℤ) (a : String) (r : WeatherRow) :
    keyMatch t a r = decide ((r.timestamp, r.asset_id) = (t, a)) := by
  by_cases h1 : r.timestamp = t <;> by_cases h2 : r.asset_id = a <;>
    simp [keyMatch, h1, h2, Prod.ext_iff]

theorem countP_keyMatch_le_one {w : List WeatherRow}
    (h : (w.map fun r => (r.timestamp, r.asset_id)).Nodup) (t : ℤ) (a : String) :
    w.countP (keyMatch t a) ≤ 1 := by
  have heq : w.countP (keyMatch t a)
      = @List.count _ instBEqOfDecidableEq (t, a)
          (w.map fun r => (r.timestamp, r.asset_id)) := by
    show w.countP (keyMatch t a)
      = (w.map fun r => (r.timestamp, r.asset_id)).countP
          (fun x => @BEq.beq _ instBEqOfDecidableEq x (t, a))
    rw [List.countP_map]
    congr 1
    funext r
    exact keyMatch_eq_decide t a r
  rw [heq]
  exact List.nodup_iff_count_le_one.mp h (t, a)

theorem dupMatch_false_of_nodup {base : List (ℤ × String)} {w : List WeatherRow}
    (h : (w.map fun r => (r.timestamp, r.asset_id)).Nodup) : dupMatch base w = false := by
  unfold dupMatch
  rw [List.any_eq_false]
  intro ta _
  have hle := countP_keyMatch_le_one h ta.1 ta.2
  simp only [decide_eq_true_eq]
  omega

/-- C7: a weather table with missing `(timestamp, asset_id)` pairs does
not make the generation synthesizer raise; the left join fills the missing
rows with null driver values, and the power model receives those null
drivers exactly as if they were zero. -/
theorem claim_C7_missing_weather_rows :
    (∀ (s e : String) (cfgs : List (String × AssetCfg)) (w : List WeatherRow)
        (seed : ℤ) (g : RNG) (ts te : ℤ),
      parseDateTime s = some ts → parseDateTime e = some te →
      (w.map fun r => (r.timestamp, r.asset_id)).Nodup →
      (generate_generation_data s e cfgs (some w) seed g).isOk = true) ∧
    (∀ (base : List (ℤ × String)) (w : List WeatherRow) (i : ℕ), i < base.length →
      (∀ r ∈ w, keyMatch (base.getD i (0, "")).1 (base.getD i (0, "")).2 r = false) →
      (joinWeather base w).getD i ⟨0, "", none, none⟩
        = ⟨(base.getD i (0, "")).1, (base.getD i (0, "")).2, none, none⟩) ∧
    (∀ (cfgs : List (String × AssetCfg)) (t : ℤ) (a : String),
      rowGross cfgs ⟨t, a, none, none⟩ = rowGross cfgs ⟨t, a, some 0, some 0⟩) := by
  refine ⟨?_, ?_, fun cfgs t a => rfl⟩
  · intro s e cfgs w seed g ts te h1 h2 hnd
    unfold generate_generation_data
    rw [h1, h2]
    simp only [dupMatch_false_of_nodup hnd]
    rfl
  · intro base w i hin hno
    unfold joinWeather
    rw [getD_map_of_lt _ hin _ (0, "")]
    rw [List.find?_eq_none.mpr fun r hr => by rw [hno r hr]; exact Bool.false_ne_true]

/-- C7 witness: one grid cell whose key is absent from the supplied
weather table. -/
theorem claim_C7_witness :
    (generate_generation_data "2023-01-01" "2023-01-01" [("ASSET_001", ⟨50, "wind"⟩)]
      (some [⟨0, "ASSET_001", 5, 0, 0, 0, 0, 0⟩]) 42 (seedRNG 0)).isOk = true ∧
    (joinWeather [((86400 : ℤ), "ASSET_001")]
        [⟨0, "ASSET_001", 5, 0, 0, 0, 0, 0⟩]).getD 0 ⟨0, "", none, none⟩
      = ⟨86400, "ASSET_001", none, none⟩ := by
  constructor
  · exact claim_C7_missing_weather_rows.1 _ _ _ _ _ _ _ _ rfl rfl (by decide)
  · have h := claim_C7_missing_weather_rows.2.1 [((86400 : ℤ), "ASSET_001")]
      [⟨0, "ASSET_001", 5, 0, 0, 0, 0, 0⟩] 0 (by decide) (by decide)
    exact h

/-! ## Claim C8 -/

theorem keys_map_weatherRows (base : List (ℤ × String)) (dirOf : List (String × ℚ))
    (wn dc cf tn pn hn : List ℚ) :
    ((List.range base.length).map (weatherRowAt base dirOf wn dc cf tn pn hn)).map
        (fun r : WeatherRow => (r.timestamp, r.asset_id)) = base := by
  rw [List.map_map]
  have hcomp : ((fun r : WeatherRow => (r.timestamp, r.asset_id))
      ∘ weatherRowAt base dirOf wn dc cf tn pn hn)
      = fun i => base.getD i (0, "") := by
    funext i
    rfl
  rw [hcomp, map_getD_range]

theorem weatherTable_keys (ts te ac seed : ℤ) :
    ((weatherTable ts te ac seed).map fun r => (r.timestamp, r.asset_id)).Perm
      ((datetimeRange ts te).product ((List.range ac.toNat).map assetName)) := by
  unfold weatherTable
  refine ((List.perm_insertionSort weatherRowLE _).map _).trans ?_
  rw [keys_map_weatherRows]

theorem weatherTable_sorted (ts te ac seed : ℤ) :
    List.Sorted weatherRowLE (weatherTable ts te ac seed) := by
  unfold weatherTable
  exact List.sorted_insertionSort weatherRowLE _

/-- C8: for every valid invocation, the weather table is exactly the cross
product of the inclusive hourly grid with the auto-named asset ids — its
key multiset is that cross product, each `(timestamp, asset_id)` pair
occurs exactly once, the rows are sorted by `(timestamp, asset_id)`
ascending, the row count is `hours × asset_count`, and the column set is
exactly the Weather Record schema; in particular the documented
`2023-01-01T00:00:00`–`T03:00:00`, three-asset invocation yields 12 rows
with 3 distinct asset ids. -/
theorem claim_C8_weather_grid :
    (∀ (s e : String) (ac seed : ℤ) (g : RNG) (ts te : ℤ) (tbl : List WeatherRow),
      parseDateTime s = some ts → parseDateTime e = some te →
      generate_weather_data s e ac seed g = .ok tbl →
      (tbl.map fun r => (r.timestamp, r.asset_id)).Perm
        ((datetimeRange ts te).product ((List.range ac.toNat).map assetName)) ∧
      (tbl.map fun r => (r.timestamp, r.asset_id)).Nodup ∧
      List.Sorted weatherRowLE tbl ∧
      tbl.length = (datetimeRange ts te).length * ac.toNat) ∧
    weatherColumns = weatherRecordSchema ∧
    (∀ g : RNG, ∃ tbl,
      generate_weather_data "2023-01-01T00:00:00" "2023-01-01T03:00:00" 3 123 g
        = .ok tbl ∧
      tbl.length = 12 ∧ (tbl.map WeatherRow.asset_id).dedup.length = 3) := by
  refine ⟨?_, rfl, ?_⟩
  · intro s e ac seed g ts te tbl hs he hok
    rcases generate_weather_data_ok hok with ⟨ts2, te2, hs2, he2, htbl⟩
    rw [hs] at hs2
    rw [he] at he2
    cases hs2
    cases he2
    subst htbl
    have hperm := weatherTable_keys ts te ac seed
    have hnodup : ((datetimeRange ts te).product
        ((List.range ac.toNat).map assetName)).Nodup := by
      rw [product_def]
      exact List.Nodup.product (datetimeRange_nodup ts te)
        ((List.nodup_range _).map assetName_injective)
    refine ⟨hperm, hperm.nodup_iff.mpr hnodup, weatherTable_sorted ts te ac seed, ?_⟩
    have hlen := hperm.length_eq
    rw [List.length_map, product_def, List.length_product, List.length_map,
      List.length_range] at hlen
    exact hlen
  · intro g
    refine ⟨_, rfl, ?_, ?_⟩ <;> rfl

/-- C8 witness: the documented concrete invocation, through the theorem. -/
theorem claim_C8_witness :
    List.Sorted weatherRowLE
      ((generate_weather_data "2023-01-01T00:00:00" "2023-01-01T03:00:00" 3 123
        (seedRNG 0)).toOption.getD []) ∧
    ((generate_weather_data "2023-01-01T00:00:00" "2023-01-01T03:00:00" 3 123
        (seedRNG 0)).toOption.getD []).length
      = (datetimeRange 1672531200 1672542000).length * (3 : ℤ).toNat := by
  have h := (claim_C8_weather_grid.1 "2023-01-01T00:00:00" "2023-01-01T03:00:00" 3 123
    (seedRNG 0) 1672531200 1672542000 _ rfl rfl rfl)
  exact ⟨h.2.2.1, h.2.2.2⟩

/-! ## Claim C9 -/

theorem writeFile_not_mem {α : Type} {fs : List (String × α)} {name : String} (c : α)
    (h : name ∉ fs.map Prod.fst) : writeFile fs name c = fs ++ [(name, c)] := by
  unfold writeFile
  rw [if_neg h]

theorem writeFile_mem_self {α : Type} {fs : List (String × α)} {name : String} {c : α}
    (hnd : (fs.map Prod.fst).Nodup) (hmem : (name, c) ∈ fs) : writeFile fs name c = fs := by
  unfold writeFile
  rw [if_pos (List.mem_map.mpr ⟨(name, c), hmem, rfl⟩)]
  conv_rhs => rw [← List.map_id fs]
  apply List.map_congr_left
  intro p hp
  by_cases hpn : p.1 = name
  · have hp2 : p = (name, c) :=
      List.inj_on_of_nodup_map hnd hp hmem (by rw [hpn])
    rw [if_pos hpn, hp2]
    rfl
  · rw [if_neg hpn]
    rfl

theorem foldl_writeFile_fresh {α : Type} (ps : List (String × α)) :
    ∀ fs : List (String × α), (ps.map Prod.fst).Nodup →
      (∀ p ∈ ps, p.1 ∉ fs.map Prod.fst) →
      ps.foldl (fun acc p => writeFile acc p.1 p.2) fs = fs ++ ps := by
  induction ps with
  | nil => intro fs _ _; simp
  | cons p t ih =>
    intro fs hnd hdis
    rw [List.foldl_cons, writeFile_not_mem _ (hdis p (List.mem_cons_self _ _)),
      ih (fs ++ [p]) (by simpa using hnd.of_cons) ?_, List.append_assoc]
    · rfl
    · intro q hq
      rw [List.map_append, List.mem_append]
      push_neg
      refine ⟨hdis q (List.mem_cons_of_mem _ hq), ?_⟩
      simp only [List.map_cons, List.map_nil, List.mem_singleton]
      intro hq1
      have hqmem : q.1 ∈ t.map Prod.fst := List.mem_map.mpr ⟨q, hq, rfl⟩
      rw [List.map_cons] at hnd
      exact (List.nodup_cons.mp hnd).1 (hq1 ▸ hqmem)

theorem foldl_writeFile_overwrite {α : Type} {ps : List (String × α)}
    (hnd : (ps.map Prod.fst).Nodup) :
    ∀ qs : List (String × α), (∀ q ∈ qs, q ∈ ps) →
      qs.foldl (fun acc p => writeFile acc p.1 p.2) ps = ps := by
  intro qs
  induction qs with
  | nil => intro _; rfl
  | cons q t ih =>
    intro hsub
    rw [List.foldl_cons, writeFile_mem_self hnd (hsub q (List.mem_cons_self _ _)),
      ih fun x hx => hsub x (List.mem_cons_of_mem _ hx)]

theorem save_weather_parquet_eq_foldl (df : List WeatherRow)
    (fs : List (String × List WeatherRow)) :
    save_weather_parquet df true fs
      = ((uniqueDatesSorted df).map fun d =>
          (weatherFileName d, df.filter fun r => dateOf r == d)).foldl
          (fun acc p => writeFile acc p.1 p.2) fs := by
  unfold save_weather_parquet
  rw [if_pos rfl, List.foldl_map]

/-- C9: the partitioned writer is idempotent — writing the same table
twice leaves, after the second write, exactly one file per distinct
calendar date of the timestamp column (named with the fixed prefix and the
ISO date, containing exactly that date's rows): the second write
overwrites rather than duplicates, so the file count equals the
distinct-date count.  The hypothesis records that distinct dates render to
distinct file names. -/
theorem claim_C9_writer_idempotent (df : List WeatherRow)
    (hinj : ((uniqueDatesSorted df).map weatherFileName).Nodup) :
    save_weather_parquet df true (save_weather_parquet df true [])
      = save_weather_parquet df true [] ∧
    save_weather_parquet df true []
      = ((uniqueDatesSorted df).map fun d =>
          (weatherFileName d, df.filter fun r => dateOf r == d)) ∧
    (save_weather_parquet df true (save_weather_parquet df true [])).length
      = (uniqueDatesSorted df).length ∧
    (uniqueDatesSorted df).Nodup ∧
    (∀ d, d ∈ uniqueDatesSorted df ↔ d ∈ df.map dateOf) := by
  have hnames : (((uniqueDatesSorted df).map fun d =>
      (weatherFileName d, df.filter fun r => dateOf r == d)).map Prod.fst)
      = (uniqueDatesSorted df).map weatherFileName := by
    rw [List.map_map]
    rfl
  have h1 : save_weather_parquet df true []
      = ((uniqueDatesSorted df).map fun d =>
          (weatherFileName d, df.filter fun r => dateOf r == d)) := by
    rw [save_weather_parquet_eq_foldl]
    rw [foldl_writeFile_fresh _ [] (by rw [hnames]; exact hinj) (by simp)]
    rfl
  have h2 : save_weather_parquet df true (save_weather_parquet df true [])
      = save_weather_parquet df true [] := by
    rw [save_weather_parquet_eq_foldl df (save_weather_parquet df true [])]
    conv_lhs => rw [h1]
    rw [foldl_writeFile_overwrite (by rw [hnames]; exact hinj) _ fun q hq => hq]
    rw [h1]
  refine ⟨h2, h1, ?_, ?_, ?_⟩
  · rw [h2, h1, List.length_map]
  · exact (List.perm_insertionSort _ _).nodup_iff.mpr (List.nodup_dedup _)
  · intro d
    exact (List.perm_insertionSort _ _).mem_iff.trans List.mem_dedup

/-- Two-row, two-date table used by the C9 witness. -/
def dfC9 : List WeatherRow :=
  [⟨0, "ASSET_001", 0, 0, 0, 0, 0, 0⟩, ⟨90000, "ASSET_001", 0, 0, 0, 0, 0, 0⟩]

/-- C9 witness: writing the two-date table twice leaves exactly two
files. -/
theorem claim_C9_witness :
    save_weather_parquet dfC9 true (save_weather_parquet dfC9 true [])
      = save_weather_parquet dfC9 true [] ∧
    (save_weather_parquet dfC9 true (save_weather_parquet dfC9 true [])).length = 2 := by
  obtain ⟨h1, _, h3, _, _⟩ := claim_C9_writer_idempotent dfC9 (by decide)
  exact ⟨h1, by rw [h3]; rfl⟩

end WAGA
